import Mathlib

/-!
Shallow embedding of `src/shared/openssl-util.c` (systemd's OpenSSL utility
layer).  The external OpenSSL provider is modelled by the `Provider`
structure: each fallible provider call is a deterministic field (a success
flag, or a function returning the value the provider would produce), BIGNUMs
are natural numbers, byte buffers are `List Nat`, and C out-parameters are
modelled as explicit cells threaded through each function.  Every embedded
function follows the C convention: it returns `0` on success and a negative
errno on failure; a failed C `assert` (which aborts the process) is modelled
by the distinguished return value `abortedRet`.

Each C function is split in two layers:
 * `<name>_res`  : the body of the function, returning `Except Int outputs`,
   a line-by-line translation of the C control flow (the OpenSSL 3 branch of
   each `#if OPENSSL_VERSION_MAJOR >= 3` conditional is the one embedded);
 * `<name>`      : the caller-visible function, which installs the outputs
   into the caller's out-parameter cells exactly as the C code does at the
   end of its body (`*ret = TAKE_PTR(...)`), and leaves the cells untouched
   on every error return.
-/

/-- Errno value EIO (5), produced by `SYNTHETIC_ERRNO(EIO)` and by the
error-drain macro. -/
def eio : Int := 5

/-- Errno value ENOMEM (12), produced by `log_oom_debug()` and bare
`-ENOMEM` returns. -/
def enomem : Int := 12

/-- Errno value EOPNOTSUPP (95), produced for unsupported algorithms. -/
def eopnotsupp : Int := 95

/-- Errno value EBADMSG (74), produced when a key of the wrong family is
passed to `rsa_pkey_to_suitable_key_size`. -/
def ebadmsg : Int := 74

/-- Distinguished return modelling a failed C `assert` (process abort, not a
normal return). -/
def abortedRet : Int := -999

/-- Model of the `log_openssl_errors` macro (openssl-util.c lines 12-33).
It allocates a 512-byte scratch buffer; if that allocation fails it returns
`log_oom_debug()` = `-ENOMEM` at once, leaving the thread error queue as it
was.  Otherwise it pops every queued error, logging each, and returns
`-EIO` (also when the queue was empty, via the final
`log_debug_errno(SYNTHETIC_ERRNO(EIO), ...)` fallback).  The result is the
returned errno paired with the state of the thread error queue afterwards. -/
def log_openssl_errors (bufAlloc : Bool) (queue : List Nat) : Int × List Nat :=
  if bufAlloc then (-eio, []) else (-enomem, queue)

/-- Model of a resolved digest algorithm (`EVP_MD`): its fixed size as
reported by `EVP_MD_get_size`, and the hash function the provider computes
(the finalize call reports the length of the bytes it produced). -/
structure MD where
  size : Nat
  hash : List Nat → List Nat

/-- Model of an elliptic-curve group (`EC_GROUP`): the provider's on-curve
test used by `EC_POINT_set_affine_coordinates`, which fails closed on
points not on the curve. -/
structure Curve where
  onCurve : Nat → Nat → Bool

/-- Model of an `EVP_PKEY` public key handle: either an RSA key holding the
modulus and public exponent as unsigned integers, or an EC key holding the
group name string and the affine coordinates. -/
inductive PKey where
  | rsa (n e : Nat)
  | ecc (group : String) (x y : Nat)
deriving DecidableEq, Repr

/-- Model of the OpenSSL provider: every fallible call made by
openssl-util.c appears as a success flag, and every provider-computed value
as a function field.  Defaults give an all-succeeding provider with empty
algorithm tables. -/
structure Provider where
  /-- thread-local error queue contents -/
  errQueue : List Nat := []
  /-- whether the 512-byte scratch buffer in `log_openssl_errors` allocates -/
  logBufAlloc : Bool := true
  /-- whether `fmemopen` succeeds in `openssl_pkey_from_pem` -/
  fmemopenOk : Bool := true
  /-- `PEM_read_PUBKEY`: the key parsed from the PEM bytes, if any -/
  pemParse : List Nat → Option PKey := fun _ => none
  /-- `EVP_MD_fetch`: resolve a digest algorithm name -/
  mdFetch : String → Option MD := fun _ => none
  /-- `EVP_MD_CTX_new` in `openssl_digest_many` -/
  mdCtxNewOk : Bool := true
  /-- `EVP_DigestInit_ex` in `openssl_digest_many` -/
  digestInitOk : Bool := true
  /-- `EVP_DigestUpdate` outcome for the i-th iovec -/
  digestUpdateOk : Nat → Bool := fun _ => true
  /-- `malloc(digest_size)` in `openssl_digest_many` -/
  digestBufAlloc : Bool := true
  /-- `EVP_DigestFinal_ex` in `openssl_digest_many` -/
  digestFinalOk : Bool := true
  /-- `EVP_MAC_fetch(NULL, "HMAC", NULL)` -/
  macFetchOk : Bool := true
  /-- `EVP_MAC_CTX_new` -/
  macCtxNewOk : Bool := true
  /-- `OSSL_PARAM_BLD_new` in `openssl_hmac_many` -/
  bldNewOk : Bool := true
  /-- `OSSL_PARAM_BLD_push_utf8_string(OSSL_MAC_PARAM_DIGEST, ...)` -/
  bldPushDigestOk : Bool := true
  /-- `OSSL_PARAM_BLD_to_param` in `openssl_hmac_many` -/
  toParamOk : Bool := true
  /-- `EVP_MAC_init` with the caller's key -/
  macInitOk : Bool := true
  /-- `EVP_MAC_update` outcome for the i-th iovec -/
  macUpdateOk : Nat → Bool := fun _ => true
  /-- `EVP_MAC_CTX_get_mac_size` after initialization -/
  macSize : Nat := 0
  /-- `malloc(digest_size)` in `openssl_hmac_many` -/
  hmacBufAlloc : Bool := true
  /-- `EVP_MAC_final` -/
  macFinalOk : Bool := true
  /-- the MAC bytes the provider produces for (key, message) -/
  hmac : List Nat → List Nat → List Nat := fun _ _ => []
  /-- `EVP_PKEY_CTX_new(pkey, NULL)` in `rsa_encrypt_bytes` -/
  pkeyCtxNewOk : Bool := true
  /-- `EVP_PKEY_encrypt_init` -/
  encInitOk : Bool := true
  /-- `EVP_PKEY_CTX_set_rsa_padding(RSA_PKCS1_PADDING)` -/
  setPadOk : Bool := true
  /-- first `EVP_PKEY_encrypt` call (size query with NULL output) -/
  encQueryOk : Bool := true
  /-- `malloc(l)` in `rsa_encrypt_bytes` (bare `-ENOMEM` on failure) -/
  encBufAlloc : Bool := true
  /-- second `EVP_PKEY_encrypt` call (the real encryption) -/
  encFinalOk : Bool := true
  /-- the ciphertext the provider produces for (key, plaintext) -/
  rsaEncrypt : PKey → List Nat → List Nat := fun _ _ => []
  /-- `EVP_PKEY_CTX_new_id(EVP_PKEY_RSA, NULL)` in `rsa_pkey_from_n_e` -/
  rsaCtxNewOk : Bool := true
  /-- `BN_bin2bn` allocations for n and e -/
  bnAllocOk : Bool := true
  /-- `EVP_PKEY_fromdata_init` in `rsa_pkey_from_n_e` -/
  fromdataInitOk : Bool := true
  /-- `OSSL_PARAM_BLD_new` in `rsa_pkey_from_n_e` -/
  rsaBldNewOk : Bool := true
  /-- `OSSL_PARAM_BLD_push_BN(OSSL_PKEY_PARAM_RSA_N, ...)` -/
  pushNOk : Bool := true
  /-- `OSSL_PARAM_BLD_push_BN(OSSL_PKEY_PARAM_RSA_E, ...)` -/
  pushEOk : Bool := true
  /-- `OSSL_PARAM_BLD_to_param` in `rsa_pkey_from_n_e` -/
  rsaToParamOk : Bool := true
  /-- `EVP_PKEY_fromdata` in `rsa_pkey_from_n_e` -/
  rsaFromdataOk : Bool := true
  /-- `EVP_PKEY_get_bn_param(OSSL_PKEY_PARAM_RSA_N, ...)` on an RSA key -/
  rsaGetNOk : Bool := true
  /-- `EVP_PKEY_get_bn_param(OSSL_PKEY_PARAM_RSA_E, ...)` on an RSA key -/
  rsaGetEOk : Bool := true
  /-- the two `malloc` calls in `rsa_pkey_to_n_e` -/
  rsaToAllocOk : Bool := true
  /-- `EVP_PKEY_CTX_new_id(EVP_PKEY_EC, NULL)` in `ecc_pkey_from_curve_x_y` -/
  eccCtxNewOk : Bool := true
  /-- `BN_bin2bn` allocations for x and y -/
  eccBnAllocOk : Bool := true
  /-- `EC_GROUP_new_by_curve_name`: the group for a curve id, if supported -/
  groupFromNid : Int → Option Curve := fun _ => none
  /-- `EC_POINT_new` -/
  pointNewOk : Bool := true
  /-- `EVP_PKEY_fromdata_init` in `ecc_pkey_from_curve_x_y` -/
  eccFromdataInitOk : Bool := true
  /-- `OSSL_PARAM_BLD_new` in `ecc_pkey_from_curve_x_y` -/
  eccBldNewOk : Bool := true
  /-- `OSSL_EC_curve_nid2name`: canonical short name of a curve id -/
  nid2name : Int → String := fun _ => ""
  /-- `OSSL_PARAM_BLD_push_utf8_string(OSSL_PKEY_PARAM_GROUP_NAME, ...)` -/
  pushGroupOk : Bool := true
  /-- `EC_POINT_point2buf` (uncompressed encoding; 0 length on failure) -/
  point2bufOk : Bool := true
  /-- `OSSL_PARAM_BLD_push_octet_string(OSSL_PKEY_PARAM_PUB_KEY, ...)` -/
  pushPubOk : Bool := true
  /-- `OSSL_PARAM_BLD_to_param` in `ecc_pkey_from_curve_x_y` -/
  eccToParamOk : Bool := true
  /-- `EVP_PKEY_fromdata` in `ecc_pkey_from_curve_x_y` -/
  eccFromdataOk : Bool := true
  /-- first `EVP_PKEY_get_utf8_string_param` (group-name size query) on an
  EC key -/
  getNameSizeOk : Bool := true
  /-- `new(char, name_size + 1)` in `ecc_pkey_to_curve_x_y` -/
  eccNameAllocOk : Bool := true
  /-- second `EVP_PKEY_get_utf8_string_param` (group-name read) -/
  getNameOk : Bool := true
  /-- `OBJ_sn2nid`: curve id for a short name (`0` = `NID_undef`) -/
  sn2nid : String → Int := fun _ => 0
  /-- `EVP_PKEY_get_bn_param(OSSL_PKEY_PARAM_EC_PUB_X, ...)` -/
  eccGetXOk : Bool := true
  /-- `EVP_PKEY_get_bn_param(OSSL_PKEY_PARAM_EC_PUB_Y, ...)` -/
  eccGetYOk : Bool := true
  /-- the two `malloc` calls in `ecc_pkey_to_curve_x_y` -/
  eccToBufAllocOk : Bool := true
  /-- `i2d_PublicKey`: DER encoding of a public key (`none` = negative
  return) -/
  der : PKey → Option (List Nat) := fun _ => none
  /-- `malloc(sz)` for the DER buffer in `pubkey_fingerprint` -/
  fpBufAlloc : Bool := true
  /-- second `i2d_PublicKey` call (the actual DER write) -/
  fpDerWriteOk : Bool := true
  /-- `EVP_MD_CTX_new` in `pubkey_fingerprint` -/
  fpCtxNewOk : Bool := true
  /-- `EVP_DigestInit_ex` in `pubkey_fingerprint` -/
  fpInitOk : Bool := true
  /-- `EVP_DigestUpdate` in `pubkey_fingerprint` -/
  fpUpdateOk : Bool := true
  /-- `malloc(msz)` for the hash buffer in `pubkey_fingerprint` -/
  fpHashBufAlloc : Bool := true
  /-- `EVP_DigestFinal_ex` in `pubkey_fingerprint` -/
  fpFinalOk : Bool := true
  /-- `EVP_MD_CTX_new` in `digest_and_sign` -/
  dsCtxNewOk : Bool := true
  /-- `EVP_DigestSignInit` -/
  signInitOk : Bool := true
  /-- first `EVP_DigestSign` call (signature size query) -/
  signQueryOk : Bool := true
  /-- `malloc(ss)` in `digest_and_sign` -/
  sigBufAlloc : Bool := true
  /-- second `EVP_DigestSign` call (the real signing) -/
  signFinalOk : Bool := true
  /-- the signature bytes the provider produces for (key, message) -/
  signature : PKey → List Nat → List Nat := fun _ _ => []

/-- Errno produced by a `return log_openssl_errors(...)` statement: the
drain runs against the provider's thread error queue. -/
def drain (P : Provider) : Int :=
  (log_openssl_errors P.logBufAlloc P.errQueue).1

/-- Value of a big-endian byte buffer as an unsigned integer
(`BN_bin2bn`). -/
def bytesToNat (l : List Nat) : Nat :=
  l.foldl (fun a b => 256 * a + b) 0

/-- Minimal big-endian byte encoding of an unsigned integer (`BN_bn2bin`,
whose output length is `BN_num_bytes`): no leading zero byte, empty exactly
for zero. -/
def natToBytes (m : Nat) : List Nat :=
  (Nat.digits 256 m).reverse

/-- Whether every `EVP_DigestUpdate` / `EVP_MAC_update` call of the loop
over the `n` iovec entries succeeds. -/
def updatesOk (f : Nat → Bool) (n : Nat) : Bool :=
  (List.range n).all f

/-- Body of `openssl_digest_size` (lines 57-82): resolve the algorithm
(`-EOPNOTSUPP` if unknown), read its size, drain errors if the size is
reported as zero, otherwise produce the size. -/
def openssl_digest_size_res (P : Provider) (alg : String) : Except Int Nat :=
  match P.mdFetch alg with
  | none => .error (-eopnotsupp)
  | some md =>
      if md.size = 0 then .error (drain P)
      else .ok md.size

/-- Caller-visible `openssl_digest_size`: writes `*ret_digest_size` only on
success. -/
def openssl_digest_size (P : Provider) (alg : String) (c : Nat) : Int × Nat :=
  match openssl_digest_size_res P alg with
  | .error rc => (rc, c)
  | .ok s => (0, s)

/-- Out-parameter cells of `openssl_digest_many` / `openssl_hmac_many`:
`*ret_digest` (required) and `*ret_digest_size` (`none` models a NULL
`ret_digest_size` pointer, which the caller may pass). -/
structure DMCells where
  digest : List Nat
  size : Option Nat
deriving DecidableEq, Repr

/-- Body of `openssl_digest_many` (lines 86-140): resolve the algorithm,
create and initialize a digest context, feed each iovec in order, query the
digest size via `openssl_digest_size`, allocate the output buffer, finalize,
and `assert` that the finalize-reported size equals the queried size. -/
def openssl_digest_many_res (P : Provider) (alg : String)
    (data : List (List Nat)) : Except Int (List Nat × Nat) :=
  match P.mdFetch alg with
  | none => .error (-eopnotsupp)
  | some md =>
      if !P.mdCtxNewOk then .error (drain P)
      else if !P.digestInitOk then .error (drain P)
      else if !updatesOk P.digestUpdateOk data.length then .error (drain P)
      else match openssl_digest_size_res P alg with
        | .error rc => .error rc
        | .ok ds =>
            if !P.digestBufAlloc then .error (-enomem)
            else if !P.digestFinalOk then .error (drain P)
            else if (md.hash data.flatten).length = ds then
              .ok (md.hash data.flatten, (md.hash data.flatten).length)
            else .error abortedRet

/-- Caller-visible `openssl_digest_many`: on success transfers the buffer to
`*ret_digest` and, when `ret_digest_size` is non-NULL, the size to
`*ret_digest_size`; on error the cells are untouched. -/
def openssl_digest_many (P : Provider) (alg : String) (data : List (List Nat))
    (c : DMCells) : Int × DMCells :=
  match openssl_digest_many_res P alg data with
  | .error rc => (rc, c)
  | .ok out => (0, { digest := out.1, size := c.size.map fun _ => out.2 })

/-- Body of `openssl_hmac_many` (lines 145-237, OpenSSL 3 branch): resolve
the digest algorithm, fetch the HMAC implementation, build the parameter
list naming the digest, initialize the MAC context with the caller's key,
feed each iovec, query the MAC size (error if zero), allocate, finalize,
and `assert` the finalize-reported size equals the queried size. -/
def openssl_hmac_many_res (P : Provider) (alg : String) (key : List Nat)
    (data : List (List Nat)) : Except Int (List Nat × Nat) :=
  match P.mdFetch alg with
  | none => .error (-eopnotsupp)
  | some _ =>
      if !P.macFetchOk then .error (drain P)
      else if !P.macCtxNewOk then .error (drain P)
      else if !P.bldNewOk then .error (drain P)
      else if !P.bldPushDigestOk then .error (drain P)
      else if !P.toParamOk then .error (drain P)
      else if !P.macInitOk then .error (drain P)
      else if !updatesOk P.macUpdateOk data.length then .error (drain P)
      else if P.macSize = 0 then .error (drain P)
      else if !P.hmacBufAlloc then .error (-enomem)
      else if !P.macFinalOk then .error (drain P)
      else if (P.hmac key data.flatten).length = P.macSize then
        .ok (P.hmac key data.flatten, (P.hmac key data.flatten).length)
      else .error abortedRet

/-- Caller-visible `openssl_hmac_many`: same out-parameter contract as
`openssl_digest_many`. -/
def openssl_hmac_many (P : Provider) (alg : String) (key : List Nat)
    (data : List (List Nat)) (c : DMCells) : Int × DMCells :=
  match openssl_hmac_many_res P alg key data with
  | .error rc => (rc, c)
  | .ok out => (0, { digest := out.1, size := c.size.map fun _ => out.2 })

/-- Body of `openssl_pkey_from_pem` (lines 35-51): open an in-memory stream
(`-ENOMEM` via `log_oom_debug` on failure) and parse one public key from
it, draining errors if no key parses. -/
def openssl_pkey_from_pem_res (P : Provider) (pem : List Nat) :
    Except Int PKey :=
  if !P.fmemopenOk then .error (-enomem)
  else match P.pemParse pem with
    | none => .error (drain P)
    | some k => .ok k

/-- Caller-visible `openssl_pkey_from_pem`: writes `*ret` only on
success. -/
def openssl_pkey_from_pem (P : Provider) (pem : List Nat) (c : PKey) :
    Int × PKey :=
  match openssl_pkey_from_pem_res P pem with
  | .error rc => (rc, c)
  | .ok k => (0, k)

/-- Out-parameter cells of `rsa_encrypt_bytes`: `*ret_encrypt_key` and
`*ret_encrypt_key_size` (both required). -/
structure EncCells where
  key : List Nat
  size : Nat
deriving DecidableEq, Repr

/-- Body of `rsa_encrypt_bytes` (lines 239-274): create a key context,
initialize encryption, select PKCS#1 padding, query the ciphertext size
with a NULL output (first `EVP_PKEY_encrypt`), allocate exactly that much
(bare `-ENOMEM` on failure), then encrypt for real. -/
def rsa_encrypt_bytes_res (P : Provider) (k : PKey) (plain : List Nat) :
    Except Int (List Nat) :=
  if !P.pkeyCtxNewOk then .error (drain P)
  else if !P.encInitOk then .error (drain P)
  else if !P.setPadOk then .error (drain P)
  else if !P.encQueryOk then .error (drain P)
  else if !P.encBufAlloc then .error (-enomem)
  else if !P.encFinalOk then .error (drain P)
  else .ok (P.rsaEncrypt k plain)

/-- Caller-visible `rsa_encrypt_bytes`: writes the ciphertext and its length
only on success. -/
def rsa_encrypt_bytes (P : Provider) (k : PKey) (plain : List Nat)
    (c : EncCells) : Int × EncCells :=
  match rsa_encrypt_bytes_res P k plain with
  | .error rc => (rc, c)
  | .ok ct => (0, { key := ct, size := ct.length })

/-- Number of bits of an unsigned integer (`BN_num_bits`, which is what
`EVP_PKEY_bits` reports for an RSA key's modulus). -/
def bitLen (n : Nat) : Nat :=
  if n = 0 then 0 else Nat.log2 n + 1

/-- Body of `rsa_pkey_to_suitable_key_size` (lines 276-304): `-EBADMSG`
when the key is not RSA; otherwise `bits / 8 / 2`, and `-EIO` (via a direct
`SYNTHETIC_ERRNO(EIO)`, no drain) when that quotient is below one byte. -/
def rsa_pkey_to_suitable_key_size_res (k : PKey) : Except Int Nat :=
  match k with
  | .ecc _ _ _ => .error (-ebadmsg)
  | .rsa n _ =>
      if bitLen n / 8 / 2 < 1 then .error (-eio)
      else .ok (bitLen n / 8 / 2)

/-- Caller-visible `rsa_pkey_to_suitable_key_size`: writes
`*ret_suitable_key_size` only on success. -/
def rsa_pkey_to_suitable_key_size (k : PKey) (c : Nat) : Int × Nat :=
  match rsa_pkey_to_suitable_key_size_res k with
  | .error rc => (rc, c)
  | .ok s => (0, s)

/-- Body of `rsa_pkey_from_n_e` (lines 308-371, OpenSSL 3 branch): create
an RSA key context, convert the two big-endian buffers with `BN_bin2bn`,
push both into a parameter builder, and build a public-only key via
`EVP_PKEY_fromdata`. -/
def rsa_pkey_from_n_e_res (P : Provider) (n e : List Nat) : Except Int PKey :=
  if !P.rsaCtxNewOk then .error (drain P)
  else if !P.bnAllocOk then .error (drain P)
  else if !P.fromdataInitOk then .error (drain P)
  else if !P.rsaBldNewOk then .error (drain P)
  else if !P.pushNOk then .error (drain P)
  else if !P.pushEOk then .error (drain P)
  else if !P.rsaToParamOk then .error (drain P)
  else if !P.rsaFromdataOk then .error (drain P)
  else .ok (PKey.rsa (bytesToNat n) (bytesToNat e))

/-- Caller-visible `rsa_pkey_from_n_e`: writes `*ret` only on success. -/
def rsa_pkey_from_n_e (P : Provider) (n e : List Nat) (c : PKey) :
    Int × PKey :=
  match rsa_pkey_from_n_e_res P n e with
  | .error rc => (rc, c)
  | .ok k => (0, k)

/-- Out-parameter cells of `rsa_pkey_to_n_e`: `*ret_n`, `*ret_n_size`,
`*ret_e`, `*ret_e_size` (all required). -/
structure RsaNECells where
  n : List Nat
  nSize : Nat
  e : List Nat
  eSize : Nat
deriving DecidableEq, Repr

/-- Body of `rsa_pkey_to_n_e` (lines 374-423, OpenSSL 3 branch): read the
`n` and `e` BIGNUM parameters (which fails when the key is not RSA),
allocate `BN_num_bytes`-sized buffers, and serialize each value with
`BN_bn2bin` (minimal big-endian form; the C `assert`s that `BN_bn2bin`
wrote exactly `BN_num_bytes` bytes hold by definition of that encoding). -/
def rsa_pkey_to_n_e_res (P : Provider) (k : PKey) :
    Except Int (List Nat × List Nat) :=
  match k with
  | .ecc _ _ _ => .error (drain P)
  | .rsa n e =>
      if !P.rsaGetNOk then .error (drain P)
      else if !P.rsaGetEOk then .error (drain P)
      else if !P.rsaToAllocOk then .error (-enomem)
      else .ok (natToBytes n, natToBytes e)

/-- Caller-visible `rsa_pkey_to_n_e`: writes the four out-parameters only on
success. -/
def rsa_pkey_to_n_e (P : Provider) (k : PKey) (c : RsaNECells) :
    Int × RsaNECells :=
  match rsa_pkey_to_n_e_res P k with
  | .error rc => (rc, c)
  | .ok out =>
      (0, { n := out.1, nSize := out.1.length,
            e := out.2, eSize := out.2.length })

/-- Body of `ecc_pkey_from_curve_x_y` (lines 449-535, OpenSSL 3 branch):
create an EC key context, convert the coordinate buffers with `BN_bin2bn`,
look up the curve group by id, create a point and set its affine
coordinates (the provider rejects points not on the curve), then build the
public key via the parameter builder and `EVP_PKEY_fromdata`, naming the
group by `OSSL_EC_curve_nid2name` and encoding the point uncompressed. -/
def ecc_pkey_from_curve_x_y_res (P : Provider) (curveId : Int)
    (x y : List Nat) : Except Int PKey :=
  if !P.eccCtxNewOk then .error (drain P)
  else if !P.eccBnAllocOk then .error (drain P)
  else match P.groupFromNid curveId with
    | none => .error (drain P)
    | some g =>
        if !P.pointNewOk then .error (drain P)
        else if !(g.onCurve (bytesToNat x) (bytesToNat y)) then
          .error (drain P)
        else if !P.eccFromdataInitOk then .error (drain P)
        else if !P.eccBldNewOk then .error (drain P)
        else if !P.pushGroupOk then .error (drain P)
        else if !P.point2bufOk then .error (drain P)
        else if !P.pushPubOk then .error (drain P)
        else if !P.eccToParamOk then .error (drain P)
        else if !P.eccFromdataOk then .error (drain P)
        else .ok (PKey.ecc (P.nid2name curveId) (bytesToNat x) (bytesToNat y))

/-- Caller-visible `ecc_pkey_from_curve_x_y`: writes `*ret` only on
success. -/
def ecc_pkey_from_curve_x_y (P : Provider) (curveId : Int) (x y : List Nat)
    (c : PKey) : Int × PKey :=
  match ecc_pkey_from_curve_x_y_res P curveId x y with
  | .error rc => (rc, c)
  | .ok k => (0, k)

/-- Out-parameter cells of `ecc_pkey_to_curve_x_y`: all five pointers are
optional at the interface, so each cell is `none` when the caller passed
NULL. -/
structure EccCells where
  curveId : Option Int
  x : Option (List Nat)
  xSize : Option Nat
  y : Option (List Nat)
  ySize : Option Nat
deriving DecidableEq, Repr

/-- Body of `ecc_pkey_to_curve_x_y` (lines 537-617, OpenSSL 3 branch): read
the group-name parameter (size query, allocation, then the read — the query
fails when the key is not EC), recover the curve id with `OBJ_sn2nid`
(error on `NID_undef`), read the two coordinate BIGNUM parameters, and
serialize them with `BN_bn2bin` into `BN_num_bytes`-sized buffers. -/
def ecc_pkey_to_curve_x_y_res (P : Provider) (k : PKey) :
    Except Int (Int × List Nat × List Nat) :=
  match k with
  | .rsa _ _ => .error (drain P)
  | .ecc name X Y =>
      if !P.getNameSizeOk then .error (drain P)
      else if !P.eccNameAllocOk then .error (-enomem)
      else if !P.getNameOk then .error (drain P)
      else if P.sn2nid name = 0 then .error (drain P)
      else if !P.eccGetXOk then .error (drain P)
      else if !P.eccGetYOk then .error (drain P)
      else if !P.eccToBufAllocOk then .error (-enomem)
      else .ok (P.sn2nid name, natToBytes X, natToBytes Y)

/-- Caller-visible `ecc_pkey_to_curve_x_y`: on success writes exactly the
out-parameters whose pointers are non-NULL; on error writes none of
them. -/
def ecc_pkey_to_curve_x_y (P : Provider) (k : PKey) (c : EccCells) :
    Int × EccCells :=
  match ecc_pkey_to_curve_x_y_res P k with
  | .error rc => (rc, c)
  | .ok out =>
      (0, { curveId := c.curveId.map fun _ => out.1,
            x := c.x.map fun _ => out.2.1,
            xSize := c.xSize.map fun _ => out.2.1.length,
            y := c.y.map fun _ => out.2.2,
            ySize := c.ySize.map fun _ => out.2.2.length })

/-- Out-parameter cells of `pubkey_fingerprint` and `digest_and_sign`:
`*ret` and `*ret_size` (both required). -/
structure BufCells where
  ret : List Nat
  size : Nat
deriving DecidableEq, Repr

/-- Body of `pubkey_fingerprint` (lines 642-695): DER-encode the public key
(size query, allocation, write), digest the DER bytes with the given
algorithm, `assert` the algorithm size is positive, allocate the hash
buffer, finalize, and `assert` the finalize-reported size equals the
algorithm size. -/
def pubkey_fingerprint_res (P : Provider) (k : PKey) (md : MD) :
    Except Int (List Nat × Nat) :=
  match P.der k with
  | none => .error (drain P)
  | some d =>
      if !P.fpBufAlloc then .error (-enomem)
      else if !P.fpDerWriteOk then .error (drain P)
      else if !P.fpCtxNewOk then .error (drain P)
      else if !P.fpInitOk then .error (drain P)
      else if !P.fpUpdateOk then .error (drain P)
      else if md.size = 0 then .error abortedRet
      else if !P.fpHashBufAlloc then .error (-enomem)
      else if !P.fpFinalOk then .error (drain P)
      else if (md.hash d).length = md.size then .ok (md.hash d, md.size)
      else .error abortedRet

/-- Caller-visible `pubkey_fingerprint`: writes the digest and its size only
on success. -/
def pubkey_fingerprint (P : Provider) (k : PKey) (md : MD) (c : BufCells) :
    Int × BufCells :=
  match pubkey_fingerprint_res P k md with
  | .error rc => (rc, c)
  | .ok out => (0, { ret := out.1, size := out.2 })

/-- The C `SIZE_MAX` sentinel accepted by `digest_and_sign`. -/
def sizeMaxC : Nat := 2 ^ 64 - 1

/-- Model of C `strlen`: number of bytes before the first NUL. -/
def strlen (bs : List Nat) : Nat :=
  (bs.takeWhile (fun b => b != 0)).length

/-- Argument preparation of `digest_and_sign` (lines 707-714): when `size`
is zero the data pointer is replaced by `""` (a valid non-NULL pointer to a
single NUL byte) so the provider never sees a NULL/zero pair; otherwise
`data` must be non-NULL (`assert(data)`, modelled as `none` = abort), and
`size == SIZE_MAX` means the data is a null-terminated string whose length
is computed with `strlen`.  The result is the (pointer, length) pair handed
to `EVP_DigestSign`, where the pointer is `none` only for the impossible
NULL case. -/
def ds_prepare (data : Option (List Nat)) (size : Nat) :
    Option (Option (List Nat) × Nat) :=
  if size = 0 then some (some [0], 0)
  else match data with
    | none => none
    | some bs => some (some bs, if size = sizeMaxC then strlen bs else size)

/-- Body of `digest_and_sign` (lines 697-738): normalize the data pointer
and length via `ds_prepare`, create a digest context, initialize signing,
query the signature size with a NULL output (first `EVP_DigestSign`),
allocate, then sign for real; the provider reads exactly `len` bytes from
the prepared pointer. -/
def digest_and_sign_res (P : Provider) (k : PKey) (data : Option (List Nat))
    (size : Nat) : Except Int (List Nat) :=
  match ds_prepare data size with
  | none => .error abortedRet
  | some pl =>
      if !P.dsCtxNewOk then .error (drain P)
      else if !P.signInitOk then .error (drain P)
      else if !P.signQueryOk then .error (drain P)
      else if !P.sigBufAlloc then .error (-enomem)
      else if !P.signFinalOk then .error (drain P)
      else .ok (P.signature k ((pl.1.getD []).take pl.2))

/-- Caller-visible `digest_and_sign`: writes the signature and its size only
on success. -/
def digest_and_sign (P : Provider) (k : PKey) (data : Option (List Nat))
    (size : Nat) (c : BufCells) : Int × BufCells :=
  match digest_and_sign_res P k data size with
  | .error rc => (rc, c)
  | .ok sig => (0, { ret := sig, size := sig.length })

/-- Default provider: all calls succeed, all lookup tables empty. -/
def P0 : Provider := {}

/-- Toy fixed-size digest algorithm used as a concrete witness: size 2,
constant output of matching length. -/
def mdTwo : MD := ⟨2, fun _ => [0, 0]⟩

/-- Defective digest algorithm reporting size zero. -/
def mdZero : MD := ⟨0, fun _ => []⟩

/-- Provider exposing `mdTwo` under every name. -/
def Pdig : Provider := { mdFetch := fun _ => some mdTwo }

/-- Provider exposing the defective `mdZero` under every name. -/
def PdigZ : Provider := { mdFetch := fun _ => some mdZero }

/-- Provider exposing the defective `mdZero` and whose drain scratch buffer
cannot be allocated. -/
def PdigZnomem : Provider :=
  { mdFetch := fun _ => some mdZero, logBufAlloc := false }

/-- Provider computing a 2-byte HMAC. -/
def Phmac : Provider :=
  { mdFetch := fun _ => some mdTwo, macSize := 2, hmac := fun _ _ => [7, 7] }

/-- Toy curve used as a concrete witness: the points with x + y = 3. -/
def toyCurve : Curve := ⟨fun a b => a + b == 3⟩

/-- Provider supporting `toyCurve` under curve id 415 with coherent
name/id translation. -/
def PeccW : Provider :=
  { groupFromNid := fun i => if i = 415 then some toyCurve else none,
    nid2name := fun _ => "p",
    sn2nid := fun s => if s = "p" then (415 : Int) else 0 }

/-- Provider with a concrete signature function. -/
def PsigW : Provider := { signature := fun _ m => m ++ m }

/-! ## Helper lemmas -/

/-- The drain always produces a strictly negative errno. -/
theorem drain_neg (P : Provider) : drain P < 0 := by
  unfold drain log_openssl_errors
  split <;> simp [eio, enomem]

/-- The drain never produces the success value. -/
theorem drain_ne_zero (P : Provider) : drain P ≠ 0 :=
  ne_of_lt (drain_neg P)

/-- When the drain scratch buffer allocates, the drain produces `-EIO`. -/
theorem drain_eq_eio (P : Provider) (h : P.logBufAlloc = true) :
    drain P = -eio := by
  unfold drain log_openssl_errors
  simp [h]

/-- The drain produces either `-EIO` or `-ENOMEM`. -/
theorem drain_cases (P : Provider) : drain P = -eio ∨ drain P = -enomem := by
  unfold drain log_openssl_errors
  split <;> simp

/-- Folding big-endian accumulation from the right is `Nat.ofDigits`. -/
theorem foldr_eq_ofDigits (l : List Nat) :
    l.foldr (fun x y => 256 * y + x) 0 = Nat.ofDigits 256 l := by
  induction l with
  | nil => simp
  | cons d t ih =>
      simp only [List.foldr_cons, ih, Nat.ofDigits_cons]
      ring

/-- The big-endian value of a buffer is `Nat.ofDigits` of its reversal. -/
theorem bytesToNat_eq_ofDigits (l : List Nat) :
    bytesToNat l = Nat.ofDigits 256 l.reverse := by
  unfold bytesToNat
  rw [← List.reverse_reverse l, List.foldl_reverse, List.reverse_reverse,
    foldr_eq_ofDigits]

/-- Serializing an integer and reading it back is the identity:
`BN_bin2bn(BN_bn2bin(m)) = m`. -/
theorem bytesToNat_natToBytes (m : Nat) : bytesToNat (natToBytes m) = m := by
  rw [bytesToNat_eq_ofDigits]
  unfold natToBytes
  rw [List.reverse_reverse, Nat.ofDigits_digits]

/-- The minimal big-endian encoding never starts with a zero byte. -/
theorem natToBytes_head_ne_zero (m : Nat) :
    (natToBytes m).head? ≠ some 0 := by
  unfold natToBytes
  rcases eq_or_ne m 0 with h | h
  · subst h; simp
  · rw [List.head?_reverse]
    have hne : Nat.digits 256 m ≠ [] := Nat.digits_ne_nil_iff_ne_zero.mpr h
    rw [List.getLast?_eq_getLast _ hne]
    intro hc
    exact Nat.getLast_digit_ne_zero 256 h (by injection hc)

/-- Every error of `openssl_digest_size` is a negative errno. -/
theorem openssl_digest_size_res_err {P : Provider} {alg : String} {rc : Int}
    (h : openssl_digest_size_res P alg = .error rc) : rc < 0 := by
  unfold openssl_digest_size_res at h
  repeat' split at h
  all_goals cases h
  all_goals first | exact drain_neg _ | decide

/-- Every error of `openssl_digest_many` is a negative return. -/
theorem openssl_digest_many_res_err {P : Provider} {alg : String}
    {data : List (List Nat)} {rc : Int}
    (h : openssl_digest_many_res P alg data = .error rc) : rc < 0 := by
  unfold openssl_digest_many_res at h
  repeat' split at h
  all_goals cases h
  all_goals first
    | exact drain_neg _
    | decide
    | exact openssl_digest_size_res_err (by assumption)

set_option maxHeartbeats 1000000 in
/-- Every error of `openssl_hmac_many` is a negative return. -/
theorem openssl_hmac_many_res_err {P : Provider} {alg : String}
    {key : List Nat} {data : List (List Nat)} {rc : Int}
    (h : openssl_hmac_many_res P alg key data = .error rc) : rc < 0 := by
  unfold openssl_hmac_many_res at h
  repeat' split at h
  all_goals cases h
  all_goals first | exact drain_neg _ | decide

set_option maxHeartbeats 1000000 in
/-- Every error of `ecc_pkey_from_curve_x_y` is a negative return. -/
theorem ecc_pkey_from_curve_x_y_res_err {P : Provider} {curveId : Int}
    {x y : List Nat} {rc : Int}
    (h : ecc_pkey_from_curve_x_y_res P curveId x y = .error rc) : rc < 0 := by
  unfold ecc_pkey_from_curve_x_y_res at h
  repeat' split at h
  all_goals cases h
  all_goals first | exact drain_neg _ | decide

/-- Every error of `rsa_pkey_from_n_e` is a negative return. -/
theorem rsa_pkey_from_n_e_res_err {P : Provider} {n e : List Nat} {rc : Int}
    (h : rsa_pkey_from_n_e_res P n e = .error rc) : rc < 0 := by
  unfold rsa_pkey_from_n_e_res at h
  repeat' split at h
  all_goals cases h
  all_goals first | exact drain_neg _ | decide

/-- Every error of `digest_and_sign` is a negative return. -/
theorem digest_and_sign_res_err {P : Provider} {k : PKey}
    {data : Option (List Nat)} {size : Nat} {rc : Int}
    (h : digest_and_sign_res P k data size = .error rc) : rc < 0 := by
  unfold digest_and_sign_res at h
  repeat' split at h
  all_goals cases h
  all_goals first | exact drain_neg _ | decide

/-- Successful `openssl_digest_many` agrees with `openssl_digest_size` and
returns a buffer of exactly the reported length. -/
theorem openssl_digest_many_res_ok {P : Provider} {alg : String}
    {data : List (List Nat)} {out : List Nat × Nat}
    (h : openssl_digest_many_res P alg data = .ok out) :
    openssl_digest_size_res P alg = .ok out.2 ∧ out.1.length = out.2 := by
  unfold openssl_digest_many_res at h
  repeat' split at h
  all_goals cases h
  simp_all

set_option maxHeartbeats 1600000 in
/-- Successful `openssl_hmac_many` returns a buffer of positive length
matching the reported size. -/
theorem openssl_hmac_many_res_ok {P : Provider} {alg : String}
    {key : List Nat} {data : List (List Nat)} {out : List Nat × Nat}
    (h : openssl_hmac_many_res P alg key data = .ok out) :
    0 < out.2 ∧ out.1.length = out.2 := by
  unfold openssl_hmac_many_res at h
  repeat' split at h
  all_goals cases h
  exact ⟨by omega, rfl⟩

/-- Successful `rsa_pkey_from_n_e` builds exactly the RSA key whose
components are the big-endian values of the inputs. -/
theorem rsa_pkey_from_n_e_res_ok {P : Provider} {n e : List Nat} {k : PKey}
    (h : rsa_pkey_from_n_e_res P n e = .ok k) :
    k = PKey.rsa (bytesToNat n) (bytesToNat e) := by
  unfold rsa_pkey_from_n_e_res at h
  repeat' split at h
  all_goals cases h
  rfl

set_option maxHeartbeats 1600000 in
/-- Successful `ecc_pkey_from_curve_x_y` builds exactly the EC key named
after the curve id and holding the big-endian coordinate values. -/
theorem ecc_pkey_from_curve_x_y_res_ok {P : Provider} {curveId : Int}
    {x y : List Nat} {k : PKey}
    (h : ecc_pkey_from_curve_x_y_res P curveId x y = .ok k) :
    k = PKey.ecc (P.nid2name curveId) (bytesToNat x) (bytesToNat y) := by
  unfold ecc_pkey_from_curve_x_y_res at h
  repeat' split at h
  all_goals cases h
  rfl

/-- Successful `digest_and_sign` signs exactly the prepared message. -/
theorem digest_and_sign_res_ok {P : Provider} {k : PKey}
    {data : Option (List Nat)} {size : Nat} {sig : List Nat}
    (h : digest_and_sign_res P k data size = .ok sig) :
    ∃ pl, ds_prepare data size = some pl ∧
      sig = P.signature k ((pl.1.getD []).take pl.2) := by
  unfold digest_and_sign_res at h
  repeat' split at h
  all_goals cases h
  exact ⟨_, by assumption, rfl⟩

/-! ## Claims -/

/-- C4: for every state of the drain scratch allocation and of the
provider's error queue, `log_openssl_errors` returns an I/O-kind error code
(`-EIO` or `-ENOMEM`) and never a success value; when the scratch buffer
cannot be allocated it reports out-of-memory and returns at once without
popping any queued error. -/
theorem claim_C4 (bufAlloc : Bool) (queue : List Nat) :
    (log_openssl_errors bufAlloc queue).1 < 0 ∧
    ((log_openssl_errors bufAlloc queue).1 = -eio ∨
      (log_openssl_errors bufAlloc queue).1 = -enomem) ∧
    (bufAlloc = false →
      (log_openssl_errors bufAlloc queue).1 = -enomem ∧
      (log_openssl_errors bufAlloc queue).2 = queue) := by
  cases bufAlloc <;> simp [log_openssl_errors, eio, enomem]

/-- Witness for C4 at a concrete failed allocation and non-empty queue. -/
theorem claim_C4_witness :
    (log_openssl_errors false [3, 4]).1 = -enomem ∧
    (log_openssl_errors false [3, 4]).2 = [3, 4] :=
  (claim_C4 false [3, 4]).2.2 rfl

/-- C5: `openssl_digest_size` fails with `-EOPNOTSUPP` exactly when the
provider cannot resolve the algorithm name; when resolution succeeds but
the provider reports digest size zero it fails (never succeeds), with
`-EIO` whenever the drain scratch buffer allocates; and on success the
written size is strictly positive — a zero-size digest is never reported
silently. -/
theorem claim_C5 (P : Provider) (alg : String) (c : Nat) :
    ((openssl_digest_size P alg c).1 = -eopnotsupp ↔ P.mdFetch alg = none) ∧
    (∀ md, P.mdFetch alg = some md → md.size = 0 →
      (openssl_digest_size P alg c).1 < 0 ∧
      (P.logBufAlloc = true → (openssl_digest_size P alg c).1 = -eio)) ∧
    ((openssl_digest_size P alg c).1 = 0 →
      0 < (openssl_digest_size P alg c).2) := by
  refine ⟨⟨?_, ?_⟩, ?_, ?_⟩
  · intro h
    cases hmd : P.mdFetch alg with
    | none => rfl
    | some md =>
        exfalso
        by_cases hsz : md.size = 0
        · have hres : openssl_digest_size_res P alg = .error (drain P) := by
            simp [openssl_digest_size_res, hmd, hsz]
          rw [openssl_digest_size, hres] at h
          rcases drain_cases P with hd | hd <;> rw [hd] at h <;>
            norm_num [eio, enomem, eopnotsupp] at h
        · have hres : openssl_digest_size_res P alg = .ok md.size := by
            simp [openssl_digest_size_res, hmd, hsz]
          rw [openssl_digest_size, hres] at h
          norm_num [eopnotsupp] at h
  · intro hmd
    have hres : openssl_digest_size_res P alg = .error (-eopnotsupp) := by
      simp [openssl_digest_size_res, hmd]
    rw [openssl_digest_size, hres]
  · intro md hmd hsz
    have hres : openssl_digest_size_res P alg = .error (drain P) := by
      simp [openssl_digest_size_res, hmd, hsz]
    rw [openssl_digest_size, hres]
    exact ⟨drain_neg P, fun hl => drain_eq_eio P hl⟩
  · intro h
    cases hmd : P.mdFetch alg with
    | none =>
        have hres : openssl_digest_size_res P alg = .error (-eopnotsupp) := by
          simp [openssl_digest_size_res, hmd]
        rw [openssl_digest_size, hres] at h
        norm_num [eopnotsupp] at h
    | some md =>
        by_cases hsz : md.size = 0
        · have hres : openssl_digest_size_res P alg = .error (drain P) := by
            simp [openssl_digest_size_res, hmd, hsz]
          rw [openssl_digest_size, hres] at h
          exact absurd h (drain_ne_zero P)
        · have hres : openssl_digest_size_res P alg = .ok md.size := by
            simp [openssl_digest_size_res, hmd, hsz]
          rw [openssl_digest_size, hres]
          exact Nat.pos_of_ne_zero hsz

/-- Witness for C5: success with positive size, zero-size failure with
`-EIO`, and unsupported-name failure. -/
theorem claim_C5_witness :
    0 < (openssl_digest_size Pdig "sha256" 0).2 ∧
    (openssl_digest_size PdigZ "sha256" 0).1 = -eio ∧
    (openssl_digest_size P0 "nope" 0).1 = -eopnotsupp :=
  ⟨(claim_C5 Pdig "sha256" 0).2.2 rfl,
   (((claim_C5 PdigZ "sha256" 0).2.1 mdZero rfl rfl).2 rfl),
   (claim_C5 P0 "nope" 0).1.mpr rfl⟩

/-- C6: `rsa_pkey_to_suitable_key_size` fails with `-EBADMSG` (wrong key
type) when the key is not RSA; for an RSA key of `b` bits it returns
`b / 8 / 2` when that quotient is at least 1 — in particular 128 for a
2048-bit key — and fails (with the structural-badness errno `-EIO`) when
the quotient is below 1. -/
theorem claim_C6 (k : PKey) (c : Nat) :
    (∀ g x y, k = PKey.ecc g x y →
      rsa_pkey_to_suitable_key_size k c = (-ebadmsg, c)) ∧
    (∀ n e, k = PKey.rsa n e → 1 ≤ bitLen n / 8 / 2 →
      rsa_pkey_to_suitable_key_size k c = (0, bitLen n / 8 / 2)) ∧
    (∀ n e, k = PKey.rsa n e → bitLen n / 8 / 2 < 1 →
      rsa_pkey_to_suitable_key_size k c = (-eio, c)) ∧
    (∀ n e, k = PKey.rsa n e → bitLen n = 2048 →
      rsa_pkey_to_suitable_key_size k c = (0, 128)) := by
  refine ⟨?_, ?_, ?_, ?_⟩
  · rintro g x y rfl
    rfl
  · rintro n e rfl hs
    have hres : rsa_pkey_to_suitable_key_size_res (PKey.rsa n e) =
        .ok (bitLen n / 8 / 2) := by
      simp only [rsa_pkey_to_suitable_key_size_res]
      rw [if_neg (by omega)]
    rw [rsa_pkey_to_suitable_key_size, hres]
  · rintro n e rfl hs
    have hres : rsa_pkey_to_suitable_key_size_res (PKey.rsa n e) =
        .error (-eio) := by
      simp only [rsa_pkey_to_suitable_key_size_res]
      rw [if_pos hs]
    rw [rsa_pkey_to_suitable_key_size, hres]
  · rintro n e rfl hb
    have hres : rsa_pkey_to_suitable_key_size_res (PKey.rsa n e) =
        .ok 128 := by
      simp only [rsa_pkey_to_suitable_key_size_res, hb]
      norm_num
    rw [rsa_pkey_to_suitable_key_size, hres]

/-- Witness for C6: a 2048-bit modulus yields 128, and an EC key is
rejected as the wrong key type. -/
theorem claim_C6_witness :
    rsa_pkey_to_suitable_key_size (PKey.rsa (2 ^ 2047) 65537) 0 = (0, 128) ∧
    rsa_pkey_to_suitable_key_size (PKey.ecc "p" 1 2) 0 = (-ebadmsg, 0) := by
  constructor
  · refine (claim_C6 (PKey.rsa (2 ^ 2047) 65537) 0).2.2.2 _ 65537 rfl ?_
    have h1 : (2 : Nat) ^ 2047 ≠ 0 := (Nat.two_pow_pos 2047).ne'
    have h2 : Nat.log 2 (2 ^ 2047) = 2047 := Nat.log_pow (by norm_num) 2047
    rw [bitLen, if_neg h1, Nat.log2_eq_log_two, h2]
  · exact (claim_C6 (PKey.ecc "p" 1 2) 0).1 "p" 1 2 rfl

/-- C1: whenever `openssl_digest_many` succeeds, `openssl_digest_size`
succeeds for the same algorithm, the returned buffer's length equals that
size, and the size reported through a non-NULL `ret_digest_size` equals it
as well — for every provider state and every scattered input, including the
empty one. -/
theorem claim_C1 (P : Provider) (alg : String) (data : List (List Nat))
    (c : DMCells) :
    (openssl_digest_many P alg data c).1 = 0 →
    (openssl_digest_size P alg 0).1 = 0 ∧
    (openssl_digest_many P alg data c).2.digest.length =
      (openssl_digest_size P alg 0).2 ∧
    (openssl_digest_many P alg data c).2.size =
      c.size.map fun _ => (openssl_digest_size P alg 0).2 := by
  intro h
  cases hres : openssl_digest_many_res P alg data with
  | error rc =>
      rw [openssl_digest_many, hres] at h
      exact absurd h (ne_of_lt (openssl_digest_many_res_err hres))
  | ok out =>
      obtain ⟨hds, hlen⟩ := openssl_digest_many_res_ok hres
      rw [openssl_digest_many, hres, openssl_digest_size, hds]
      exact ⟨rfl, hlen, rfl⟩

/-- Witness for C1 at a concrete provider and the empty scattered input. -/
theorem claim_C1_witness :
    (openssl_digest_size Pdig "sha256" 0).1 = 0 ∧
    (openssl_digest_many Pdig "sha256" [] ⟨[], some 0⟩).2.digest.length =
      (openssl_digest_size Pdig "sha256" 0).2 ∧
    (openssl_digest_many Pdig "sha256" [] ⟨[], some 0⟩).2.size =
      (⟨[], some 0⟩ : DMCells).size.map
        fun _ => (openssl_digest_size Pdig "sha256" 0).2 :=
  claim_C1 Pdig "sha256" [] ⟨[], some 0⟩ (by decide)

/-- C7: whenever `openssl_hmac_many` succeeds — for every algorithm, key
(the zero-length key included) and scattered input — the returned buffer is
of strictly positive length and the size reported through a non-NULL
`ret_digest_size` equals that length; a success never carries an empty
result. -/
theorem claim_C7 (P : Provider) (alg : String) (key : List Nat)
    (data : List (List Nat)) (c : DMCells) :
    (openssl_hmac_many P alg key data c).1 = 0 →
    0 < (openssl_hmac_many P alg key data c).2.digest.length ∧
    (openssl_hmac_many P alg key data c).2.size =
      c.size.map fun _ => (openssl_hmac_many P alg key data c).2.digest.length := by
  intro h
  cases hres : openssl_hmac_many_res P alg key data with
  | error rc =>
      rw [openssl_hmac_many, hres] at h
      exact absurd h (ne_of_lt (openssl_hmac_many_res_err hres))
  | ok out =>
      obtain ⟨hpos, hlen⟩ := openssl_hmac_many_res_ok hres
      rw [openssl_hmac_many, hres]
      exact ⟨by simpa [hlen] using hpos, by simp [hlen]⟩

/-- Witness for C7 at a concrete provider with a zero-length key. -/
theorem claim_C7_witness :
    0 < (openssl_hmac_many Phmac "sha256" [] [[1], [2]] ⟨[], some 0⟩).2.digest.length ∧
    (openssl_hmac_many Phmac "sha256" [] [[1], [2]] ⟨[], some 0⟩).2.size =
      (⟨[], some 0⟩ : DMCells).size.map
        fun _ =>
          (openssl_hmac_many Phmac "sha256" [] [[1], [2]] ⟨[], some 0⟩).2.digest.length :=
  claim_C7 Phmac "sha256" [] [[1], [2]] ⟨[], some 0⟩ (by decide)

/-- Extracting from an RSA key succeeds and serializes both components
minimally when the provider calls of `rsa_pkey_to_n_e` succeed. -/
theorem rsa_pkey_to_n_e_res_rsa (P : Provider) (N E : Nat)
    (h1 : P.rsaGetNOk = true) (h2 : P.rsaGetEOk = true)
    (h3 : P.rsaToAllocOk = true) :
    rsa_pkey_to_n_e_res P (PKey.rsa N E) = .ok (natToBytes N, natToBytes E) := by
  simp [rsa_pkey_to_n_e_res, h1, h2, h3]

/-- C2: for every modulus/exponent byte-buffer pair, when
`rsa_pkey_from_n_e` succeeds and the provider calls of `rsa_pkey_to_n_e`
succeed, extraction returns buffers that are the minimal big-endian
encodings of the integers the input buffers encoded: the values are
preserved and no returned buffer has a leading zero byte. -/
theorem claim_C2 (P : Provider) (n e : List Nat) (ck : PKey)
    (c2 : RsaNECells) :
    (rsa_pkey_from_n_e P n e ck).1 = 0 →
    P.rsaGetNOk = true → P.rsaGetEOk = true → P.rsaToAllocOk = true →
    (rsa_pkey_to_n_e P (rsa_pkey_from_n_e P n e ck).2 c2).1 = 0 ∧
    (rsa_pkey_to_n_e P (rsa_pkey_from_n_e P n e ck).2 c2).2 =
      { n := natToBytes (bytesToNat n),
        nSize := (natToBytes (bytesToNat n)).length,
        e := natToBytes (bytesToNat e),
        eSize := (natToBytes (bytesToNat e)).length } ∧
    bytesToNat (natToBytes (bytesToNat n)) = bytesToNat n ∧
    bytesToNat (natToBytes (bytesToNat e)) = bytesToNat e ∧
    (natToBytes (bytesToNat n)).head? ≠ some 0 ∧
    (natToBytes (bytesToNat e)).head? ≠ some 0 := by
  intro h hg1 hg2 hg3
  cases hres : rsa_pkey_from_n_e_res P n e with
  | error rc =>
      rw [rsa_pkey_from_n_e, hres] at h
      exact absurd h (ne_of_lt (rsa_pkey_from_n_e_res_err hres))
  | ok k =>
      have hk := rsa_pkey_from_n_e_res_ok hres
      subst hk
      have hsnd : (rsa_pkey_from_n_e P n e ck).2 =
          PKey.rsa (bytesToNat n) (bytesToNat e) := by
        rw [rsa_pkey_from_n_e, hres]
      have hto := rsa_pkey_to_n_e_res_rsa P (bytesToNat n) (bytesToNat e)
        hg1 hg2 hg3
      refine ⟨?_, ?_, bytesToNat_natToBytes _, bytesToNat_natToBytes _,
        natToBytes_head_ne_zero _, natToBytes_head_ne_zero _⟩
      · rw [hsnd, rsa_pkey_to_n_e, hto]
      · rw [hsnd, rsa_pkey_to_n_e, hto]

/-- Witness for C2 at concrete buffers with redundant leading zeros. -/
theorem claim_C2_witness :
    (rsa_pkey_to_n_e P0
      (rsa_pkey_from_n_e P0 [1, 0] [0, 1, 0, 1] (PKey.rsa 0 0)).2
      ⟨[], 0, [], 0⟩).1 = 0 ∧
    (rsa_pkey_to_n_e P0
      (rsa_pkey_from_n_e P0 [1, 0] [0, 1, 0, 1] (PKey.rsa 0 0)).2
      ⟨[], 0, [], 0⟩).2 =
      { n := natToBytes (bytesToNat [1, 0]),
        nSize := (natToBytes (bytesToNat [1, 0])).length,
        e := natToBytes (bytesToNat [0, 1, 0, 1]),
        eSize := (natToBytes (bytesToNat [0, 1, 0, 1])).length } ∧
    bytesToNat (natToBytes (bytesToNat [1, 0])) = bytesToNat [1, 0] ∧
    bytesToNat (natToBytes (bytesToNat [0, 1, 0, 1])) = bytesToNat [0, 1, 0, 1] ∧
    (natToBytes (bytesToNat [1, 0])).head? ≠ some 0 ∧
    (natToBytes (bytesToNat [0, 1, 0, 1])).head? ≠ some 0 :=
  claim_C2 P0 [1, 0] [0, 1, 0, 1] (PKey.rsa 0 0) ⟨[], 0, [], 0⟩
    (by decide) rfl rfl rfl

/-- Point-set failure: when the coordinates are not on the curve, the body
of `ecc_pkey_from_curve_x_y` drains and fails, whatever the other provider
call outcomes are. -/
theorem ecc_from_res_offcurve (P : Provider) {cid : Int} {g : Curve}
    (x y : List Nat) (hg : P.groupFromNid cid = some g)
    (hoff : g.onCurve (bytesToNat x) (bytesToNat y) = false) :
    ecc_pkey_from_curve_x_y_res P cid x y = .error (drain P) := by
  simp [ecc_pkey_from_curve_x_y_res, hg, hoff]

/-- Extracting from an EC key succeeds when the provider calls of
`ecc_pkey_to_curve_x_y` succeed and the name translates to a proper id. -/
theorem ecc_pkey_to_curve_x_y_res_ecc (P : Provider) (name : String)
    (X Y : Nat) (h1 : P.getNameSizeOk = true) (h2 : P.eccNameAllocOk = true)
    (h3 : P.getNameOk = true) (hnid : P.sn2nid name ≠ 0)
    (h4 : P.eccGetXOk = true) (h5 : P.eccGetYOk = true)
    (h6 : P.eccToBufAllocOk = true) :
    ecc_pkey_to_curve_x_y_res P (PKey.ecc name X Y) =
      .ok (P.sn2nid name, natToBytes X, natToBytes Y) := by
  simp [ecc_pkey_to_curve_x_y_res, h1, h2, h3, hnid, h4, h5, h6]

/-- C3: given a provider-supported curve, when the provider verifies the
point on the curve and `ecc_pkey_from_curve_x_y` succeeds, extraction with
`ecc_pkey_to_curve_x_y` (with its provider calls succeeding and the
provider's curve name/id translation coherent) returns the same curve id
and the same coordinates up to minimal big-endian normalization; and when
the point is not on the curve, construction fails — with `-EIO` whenever
the drain scratch buffer allocates — and writes no key handle. -/
theorem claim_C3 (P : Provider) (cid : Int) (x y : List Nat) (g : Curve)
    (ck : PKey) (c2 : EccCells) :
    P.groupFromNid cid = some g →
    ((g.onCurve (bytesToNat x) (bytesToNat y) = false →
        (ecc_pkey_from_curve_x_y P cid x y ck).1 < 0 ∧
        (P.logBufAlloc = true →
          (ecc_pkey_from_curve_x_y P cid x y ck).1 = -eio) ∧
        (ecc_pkey_from_curve_x_y P cid x y ck).2 = ck) ∧
     (g.onCurve (bytesToNat x) (bytesToNat y) = true →
        (ecc_pkey_from_curve_x_y P cid x y ck).1 = 0 →
        P.sn2nid (P.nid2name cid) = cid → cid ≠ 0 →
        P.getNameSizeOk = true → P.eccNameAllocOk = true →
        P.getNameOk = true → P.eccGetXOk = true → P.eccGetYOk = true →
        P.eccToBufAllocOk = true →
        (ecc_pkey_to_curve_x_y P (ecc_pkey_from_curve_x_y P cid x y ck).2
          c2).1 = 0 ∧
        (ecc_pkey_to_curve_x_y P (ecc_pkey_from_curve_x_y P cid x y ck).2
          c2).2 =
          { curveId := c2.curveId.map fun _ => cid,
            x := c2.x.map fun _ => natToBytes (bytesToNat x),
            xSize := c2.xSize.map fun _ => (natToBytes (bytesToNat x)).length,
            y := c2.y.map fun _ => natToBytes (bytesToNat y),
            ySize := c2.ySize.map fun _ => (natToBytes (bytesToNat y)).length } ∧
        bytesToNat (natToBytes (bytesToNat x)) = bytesToNat x ∧
        bytesToNat (natToBytes (bytesToNat y)) = bytesToNat y ∧
        (natToBytes (bytesToNat x)).head? ≠ some 0 ∧
        (natToBytes (bytesToNat y)).head? ≠ some 0)) := by
  intro hg
  constructor
  · intro hoff
    have hres := ecc_from_res_offcurve P x y hg hoff
    have hfrom : ecc_pkey_from_curve_x_y P cid x y ck = (drain P, ck) := by
      rw [ecc_pkey_from_curve_x_y, hres]
    rw [hfrom]
    exact ⟨drain_neg P, fun hl => drain_eq_eio P hl, rfl⟩
  · intro hon h hcoh hcid h1 h2 h3 h4 h5 h6
    cases hres : ecc_pkey_from_curve_x_y_res P cid x y with
    | error rc =>
        rw [ecc_pkey_from_curve_x_y, hres] at h
        exact absurd h (ne_of_lt (ecc_pkey_from_curve_x_y_res_err hres))
    | ok k =>
        have hk := ecc_pkey_from_curve_x_y_res_ok hres
        subst hk
        have hsnd : (ecc_pkey_from_curve_x_y P cid x y ck).2 =
            PKey.ecc (P.nid2name cid) (bytesToNat x) (bytesToNat y) := by
          rw [ecc_pkey_from_curve_x_y, hres]
        have hnid : P.sn2nid (P.nid2name cid) ≠ 0 := by
          rw [hcoh]; exact hcid
        have hto := ecc_pkey_to_curve_x_y_res_ecc P (P.nid2name cid)
          (bytesToNat x) (bytesToNat y) h1 h2 h3 hnid h4 h5 h6
        rw [hcoh] at hto
        refine ⟨?_, ?_, bytesToNat_natToBytes _, bytesToNat_natToBytes _,
          natToBytes_head_ne_zero _, natToBytes_head_ne_zero _⟩
        · rw [hsnd, ecc_pkey_to_curve_x_y, hto]
        · rw [hsnd, ecc_pkey_to_curve_x_y, hto]

/-- Witness for C3: round trip on a concrete on-curve point, and failure
without a write for an off-curve point. -/
theorem claim_C3_witness :
    ((ecc_pkey_to_curve_x_y PeccW
        (ecc_pkey_from_curve_x_y PeccW 415 [1] [2] (PKey.rsa 0 0)).2
        ⟨some 0, some [], some 0, none, none⟩).1 = 0 ∧
      (ecc_pkey_to_curve_x_y PeccW
        (ecc_pkey_from_curve_x_y PeccW 415 [1] [2] (PKey.rsa 0 0)).2
        ⟨some 0, some [], some 0, none, none⟩).2 =
        { curveId := (some 0 : Option Int).map fun _ => (415 : Int),
          x := (some [] : Option (List Nat)).map
            fun _ => natToBytes (bytesToNat [1]),
          xSize := (some 0 : Option Nat).map
            fun _ => (natToBytes (bytesToNat [1])).length,
          y := (none : Option (List Nat)).map
            fun _ => natToBytes (bytesToNat [2]),
          ySize := (none : Option Nat).map
            fun _ => (natToBytes (bytesToNat [2])).length } ∧
      bytesToNat (natToBytes (bytesToNat [1])) = bytesToNat [1] ∧
      bytesToNat (natToBytes (bytesToNat [2])) = bytesToNat [2] ∧
      (natToBytes (bytesToNat [1])).head? ≠ some 0 ∧
      (natToBytes (bytesToNat [2])).head? ≠ some 0) ∧
    ((ecc_pkey_from_curve_x_y PeccW 415 [1] [7] (PKey.rsa 0 0)).1 = -eio ∧
      (ecc_pkey_from_curve_x_y PeccW 415 [1] [7] (PKey.rsa 0 0)).2 =
        PKey.rsa 0 0) := by
  constructor
  · exact (claim_C3 PeccW 415 [1] [2] toyCurve (PKey.rsa 0 0)
      ⟨some 0, some [], some 0, none, none⟩ rfl).2 (by decide) (by decide)
      (by decide) (by decide) rfl rfl rfl rfl rfl rfl
  · have hoff := (claim_C3 PeccW 415 [1] [7] toyCurve (PKey.rsa 0 0)
      ⟨some 0, some [], some 0, none, none⟩ rfl).1 (by decide)
    exact ⟨hoff.2.1 rfl, hoff.2.2⟩

/-- The `SIZE_MAX` sentinel turns the data into a string measured with
`strlen`. -/
theorem ds_prepare_sizeMax (bs : List Nat) :
    ds_prepare (some bs) sizeMaxC = some (some bs, strlen bs) := by
  unfold ds_prepare
  rw [if_neg (by norm_num [sizeMaxC])]
  simp

/-- A zero-size input is replaced by a valid one-byte buffer, whatever the
caller's data pointer was. -/
theorem ds_prepare_zero (data : Option (List Nat)) :
    ds_prepare data 0 = some (some [0], 0) := by
  unfold ds_prepare
  simp

/-- The pointer handed to the provider is never NULL. -/
theorem ds_prepare_isSome {data : Option (List Nat)} {size : Nat}
    {p : Option (List Nat)} {l : Nat}
    (h : ds_prepare data size = some (p, l)) : p.isSome = true := by
  unfold ds_prepare at h
  repeat' split at h
  all_goals cases h
  all_goals rfl

/-- C8: `digest_and_sign` treats a `SIZE_MAX` size as "null-terminated
string", computing the signed length with `strlen` before signing; a
zero-size input makes it pass a valid non-NULL one-byte buffer to the
provider in place of the caller's pointer; the provider therefore never
receives a NULL pointer; and a successful `SIZE_MAX` call signs exactly the
first `strlen` bytes of the data. -/
theorem claim_C8 :
    (∀ bs : List Nat,
      ds_prepare (some bs) sizeMaxC = some (some bs, strlen bs)) ∧
    (∀ data : Option (List Nat), ds_prepare data 0 = some (some [0], 0)) ∧
    (∀ (data : Option (List Nat)) (size : Nat) (p : Option (List Nat))
        (l : Nat), ds_prepare data size = some (p, l) → p.isSome = true) ∧
    (∀ (P : Provider) (k : PKey) (bs : List Nat) (c : BufCells),
      (digest_and_sign P k (some bs) sizeMaxC c).1 = 0 →
      (digest_and_sign P k (some bs) sizeMaxC c).2.ret =
        P.signature k (bs.take (strlen bs))) := by
  refine ⟨ds_prepare_sizeMax, ds_prepare_zero,
    fun _ _ _ _ h => ds_prepare_isSome h, ?_⟩
  intro P k bs c h
  cases hres : digest_and_sign_res P k (some bs) sizeMaxC with
  | error rc =>
      rw [digest_and_sign, hres] at h
      exact absurd h (ne_of_lt (digest_and_sign_res_err hres))
  | ok sig =>
      obtain ⟨pl, hpl, hsig⟩ := digest_and_sign_res_ok hres
      rw [ds_prepare_sizeMax] at hpl
      injection hpl with hpl
      subst hpl
      rw [digest_and_sign, hres, hsig]
      simp

/-- Witness for C8 at a concrete NUL-terminated buffer and provider. -/
theorem claim_C8_witness :
    ds_prepare (some [104, 0, 5]) sizeMaxC =
      some (some [104, 0, 5], strlen [104, 0, 5]) ∧
    ds_prepare none 0 = some (some [0], 0) ∧
    (digest_and_sign PsigW (PKey.rsa 0 0) (some [104, 0, 5]) sizeMaxC
      ⟨[], 0⟩).2.ret =
      PsigW.signature (PKey.rsa 0 0) ([104, 0, 5].take (strlen [104, 0, 5])) :=
  ⟨claim_C8.1 [104, 0, 5], claim_C8.2.1 none,
   claim_C8.2.2.2 PsigW (PKey.rsa 0 0) [104, 0, 5] ⟨[], 0⟩ (by decide)⟩

/-- C9: every operation of this layer that reports results through caller
out-parameters leaves every out-parameter cell exactly as it was on every
non-success return, writing outputs only on the success path. -/
theorem claim_C9 :
    (∀ (P : Provider) (pem : List Nat) (c : PKey),
      (openssl_pkey_from_pem P pem c).1 ≠ 0 →
      (openssl_pkey_from_pem P pem c).2 = c) ∧
    (∀ (P : Provider) (alg : String) (data : List (List Nat)) (c : DMCells),
      (openssl_digest_many P alg data c).1 ≠ 0 →
      (openssl_digest_many P alg data c).2 = c) ∧
    (∀ (P : Provider) (alg : String) (key : List Nat)
        (data : List (List Nat)) (c : DMCells),
      (openssl_hmac_many P alg key data c).1 ≠ 0 →
      (openssl_hmac_many P alg key data c).2 = c) ∧
    (∀ (P : Provider) (k : PKey) (plain : List Nat) (c : EncCells),
      (rsa_encrypt_bytes P k plain c).1 ≠ 0 →
      (rsa_encrypt_bytes P k plain c).2 = c) ∧
    (∀ (P : Provider) (n e : List Nat) (c : PKey),
      (rsa_pkey_from_n_e P n e c).1 ≠ 0 →
      (rsa_pkey_from_n_e P n e c).2 = c) ∧
    (∀ (P : Provider) (k : PKey) (c : RsaNECells),
      (rsa_pkey_to_n_e P k c).1 ≠ 0 → (rsa_pkey_to_n_e P k c).2 = c) ∧
    (∀ (P : Provider) (cid : Int) (x y : List Nat) (c : PKey),
      (ecc_pkey_from_curve_x_y P cid x y c).1 ≠ 0 →
      (ecc_pkey_from_curve_x_y P cid x y c).2 = c) ∧
    (∀ (P : Provider) (k : PKey) (c : EccCells),
      (ecc_pkey_to_curve_x_y P k c).1 ≠ 0 →
      (ecc_pkey_to_curve_x_y P k c).2 = c) ∧
    (∀ (P : Provider) (k : PKey) (md : MD) (c : BufCells),
      (pubkey_fingerprint P k md c).1 ≠ 0 →
      (pubkey_fingerprint P k md c).2 = c) ∧
    (∀ (P : Provider) (k : PKey) (data : Option (List Nat)) (size : Nat)
        (c : BufCells),
      (digest_and_sign P k data size c).1 ≠ 0 →
      (digest_and_sign P k data size c).2 = c) := by
  refine ⟨?_, ?_, ?_, ?_, ?_, ?_, ?_, ?_, ?_, ?_⟩
  · intro P pem c h
    cases hres : openssl_pkey_from_pem_res P pem with
    | error rc => rw [openssl_pkey_from_pem, hres]
    | ok k => rw [openssl_pkey_from_pem, hres] at h; exact absurd rfl h
  · intro P alg data c h
    cases hres : openssl_digest_many_res P alg data with
    | error rc => rw [openssl_digest_many, hres]
    | ok out => rw [openssl_digest_many, hres] at h; exact absurd rfl h
  · intro P alg key data c h
    cases hres : openssl_hmac_many_res P alg key data with
    | error rc => rw [openssl_hmac_many, hres]
    | ok out => rw [openssl_hmac_many, hres] at h; exact absurd rfl h
  · intro P k plain c h
    cases hres : rsa_encrypt_bytes_res P k plain with
    | error rc => rw [rsa_encrypt_bytes, hres]
    | ok ct => rw [rsa_encrypt_bytes, hres] at h; exact absurd rfl h
  · intro P n e c h
    cases hres : rsa_pkey_from_n_e_res P n e with
    | error rc => rw [rsa_pkey_from_n_e, hres]
    | ok k => rw [rsa_pkey_from_n_e, hres] at h; exact absurd rfl h
  · intro P k c h
    cases hres : rsa_pkey_to_n_e_res P k with
    | error rc => rw [rsa_pkey_to_n_e, hres]
    | ok out => rw [rsa_pkey_to_n_e, hres] at h; exact absurd rfl h
  · intro P cid x y c h
    cases hres : ecc_pkey_from_curve_x_y_res P cid x y with
    | error rc => rw [ecc_pkey_from_curve_x_y, hres]
    | ok k => rw [ecc_pkey_from_curve_x_y, hres] at h; exact absurd rfl h
  · intro P k c h
    cases hres : ecc_pkey_to_curve_x_y_res P k with
    | error rc => rw [ecc_pkey_to_curve_x_y, hres]
    | ok out => rw [ecc_pkey_to_curve_x_y, hres] at h; exact absurd rfl h
  · intro P k md c h
    cases hres : pubkey_fingerprint_res P k md with
    | error rc => rw [pubkey_fingerprint, hres]
    | ok out => rw [pubkey_fingerprint, hres] at h; exact absurd rfl h
  · intro P k data size c h
    cases hres : digest_and_sign_res P k data size with
    | error rc => rw [digest_and_sign, hres]
    | ok sig => rw [digest_and_sign, hres] at h; exact absurd rfl h

/-- Witness for C9: failing calls at concrete inputs leave concrete
pre-existing cell contents untouched. -/
theorem claim_C9_witness :
    (openssl_digest_many P0 "nope" [] ⟨[9], some 7⟩).2 =
      (⟨[9], some 7⟩ : DMCells) ∧
    (ecc_pkey_to_curve_x_y P0 (PKey.rsa 1 2)
      ⟨some 3, none, none, none, none⟩).2 =
      (⟨some 3, none, none, none, none⟩ : EccCells) :=
  ⟨claim_C9.2.1 P0 "nope" [] ⟨[9], some 7⟩ (by decide),
   claim_C9.2.2.2.2.2.2.2.1 P0 (PKey.rsa 1 2)
     ⟨some 3, none, none, none, none⟩ (by decide)⟩

/-- Every error of `ecc_pkey_to_curve_x_y` is a negative return. -/
theorem ecc_pkey_to_curve_x_y_res_err {P : Provider} {k : PKey} {rc : Int}
    (h : ecc_pkey_to_curve_x_y_res P k = .error rc) : rc < 0 := by
  unfold ecc_pkey_to_curve_x_y_res at h
  repeat' split at h
  all_goals cases h
  all_goals first | exact drain_neg _ | decide

/-- C10: a NULL `ret_digest_size` passed to `openssl_digest_many` or
`openssl_hmac_many`, and NULL out-pointers passed to
`ecc_pkey_to_curve_x_y`, never affect the return code; on success the
functions deliver the buffer (identical whatever the out-cells were), leave
NULL cells unwritten, and `ecc_pkey_to_curve_x_y` writes exactly the
non-NULL out-parameters. -/
theorem claim_C10 :
    (∀ (P : Provider) (alg : String) (data : List (List Nat))
        (c c' : DMCells),
      (openssl_digest_many P alg data c).1 =
        (openssl_digest_many P alg data c').1) ∧
    (∀ (P : Provider) (alg : String) (data : List (List Nat))
        (d : List Nat),
      (openssl_digest_many P alg data ⟨d, none⟩).1 = 0 →
      (openssl_digest_many P alg data ⟨d, none⟩).2.size = none) ∧
    (∀ (P : Provider) (alg : String) (data : List (List Nat))
        (c c' : DMCells),
      (openssl_digest_many P alg data c).1 = 0 →
      (openssl_digest_many P alg data c).2.digest =
        (openssl_digest_many P alg data c').2.digest) ∧
    (∀ (P : Provider) (alg : String) (key : List Nat)
        (data : List (List Nat)) (c c' : DMCells),
      (openssl_hmac_many P alg key data c).1 =
        (openssl_hmac_many P alg key data c').1) ∧
    (∀ (P : Provider) (alg : String) (key : List Nat)
        (data : List (List Nat)) (d : List Nat),
      (openssl_hmac_many P alg key data ⟨d, none⟩).1 = 0 →
      (openssl_hmac_many P alg key data ⟨d, none⟩).2.size = none) ∧
    (∀ (P : Provider) (alg : String) (key : List Nat)
        (data : List (List Nat)) (c c' : DMCells),
      (openssl_hmac_many P alg key data c).1 = 0 →
      (openssl_hmac_many P alg key data c).2.digest =
        (openssl_hmac_many P alg key data c').2.digest) ∧
    (∀ (P : Provider) (k : PKey) (c c' : EccCells),
      (ecc_pkey_to_curve_x_y P k c).1 = (ecc_pkey_to_curve_x_y P k c').1) ∧
    (∀ (P : Provider) (k : PKey) (c : EccCells),
      (ecc_pkey_to_curve_x_y P k c).1 = 0 →
      ((ecc_pkey_to_curve_x_y P k c).2.curveId.isSome = c.curveId.isSome ∧
       (ecc_pkey_to_curve_x_y P k c).2.x.isSome = c.x.isSome ∧
       (ecc_pkey_to_curve_x_y P k c).2.xSize.isSome = c.xSize.isSome ∧
       (ecc_pkey_to_curve_x_y P k c).2.y.isSome = c.y.isSome ∧
       (ecc_pkey_to_curve_x_y P k c).2.ySize.isSome = c.ySize.isSome)) := by
  refine ⟨?_, ?_, ?_, ?_, ?_, ?_, ?_, ?_⟩
  · intro P alg data c c'
    cases hres : openssl_digest_many_res P alg data <;>
      rw [openssl_digest_many, openssl_digest_many, hres]
  · intro P alg data d h
    cases hres : openssl_digest_many_res P alg data with
    | error rc =>
        rw [openssl_digest_many, hres] at h
        exact absurd h (ne_of_lt (openssl_digest_many_res_err hres))
    | ok out => rw [openssl_digest_many, hres]; rfl
  · intro P alg data c c' h
    cases hres : openssl_digest_many_res P alg data with
    | error rc =>
        rw [openssl_digest_many, hres] at h
        exact absurd h (ne_of_lt (openssl_digest_many_res_err hres))
    | ok out => rw [openssl_digest_many, openssl_digest_many, hres]
  · intro P alg key data c c'
    cases hres : openssl_hmac_many_res P alg key data <;>
      rw [openssl_hmac_many, openssl_hmac_many, hres]
  · intro P alg key data d h
    cases hres : openssl_hmac_many_res P alg key data with
    | error rc =>
        rw [openssl_hmac_many, hres] at h
        exact absurd h (ne_of_lt (openssl_hmac_many_res_err hres))
    | ok out => rw [openssl_hmac_many, hres]; rfl
  · intro P alg key data c c' h
    cases hres : openssl_hmac_many_res P alg key data with
    | error rc =>
        rw [openssl_hmac_many, hres] at h
        exact absurd h (ne_of_lt (openssl_hmac_many_res_err hres))
    | ok out => rw [openssl_hmac_many, openssl_hmac_many, hres]
  · intro P k c c'
    cases hres : ecc_pkey_to_curve_x_y_res P k <;>
      rw [ecc_pkey_to_curve_x_y, ecc_pkey_to_curve_x_y, hres]
  · intro P k c h
    cases hres : ecc_pkey_to_curve_x_y_res P k with
    | error rc =>
        rw [ecc_pkey_to_curve_x_y, hres] at h
        exact absurd h (ne_of_lt (ecc_pkey_to_curve_x_y_res_err hres))
    | ok out =>
        rw [ecc_pkey_to_curve_x_y, hres]
        simp

/-- Witness for C10: a successful digest with NULL size pointer delivers no
size, and a successful EC extraction writes exactly the non-NULL cells. -/
theorem claim_C10_witness :
    (openssl_digest_many Pdig "sha256" [] ⟨[9], none⟩).2.size = none ∧
    ((ecc_pkey_to_curve_x_y PeccW (PKey.ecc "p" 1 2)
        ⟨some 0, none, some 9, none, some 9⟩).2.curveId.isSome =
      (⟨some 0, none, some 9, none, some 9⟩ : EccCells).curveId.isSome ∧
     (ecc_pkey_to_curve_x_y PeccW (PKey.ecc "p" 1 2)
        ⟨some 0, none, some 9, none, some 9⟩).2.x.isSome =
      (⟨some 0, none, some 9, none, some 9⟩ : EccCells).x.isSome ∧
     (ecc_pkey_to_curve_x_y PeccW (PKey.ecc "p" 1 2)
        ⟨some 0, none, some 9, none, some 9⟩).2.xSize.isSome =
      (⟨some 0, none, some 9, none, some 9⟩ : EccCells).xSize.isSome ∧
     (ecc_pkey_to_curve_x_y PeccW (PKey.ecc "p" 1 2)
        ⟨some 0, none, some 9, none, some 9⟩).2.y.isSome =
      (⟨some 0, none, some 9, none, some 9⟩ : EccCells).y.isSome ∧
     (ecc_pkey_to_curve_x_y PeccW (PKey.ecc "p" 1 2)
        ⟨some 0, none, some 9, none, some 9⟩).2.ySize.isSome =
      (⟨some 0, none, some 9, none, some 9⟩ : EccCells).ySize.isSome) :=
  ⟨claim_C10.2.1 Pdig "sha256" [] [9] (by decide),
   claim_C10.2.2.2.2.2.2.2 PeccW (PKey.ecc "p" 1 2)
     ⟨some 0, none, some 9, none, some 9⟩ (by decide)⟩
